import Mathlib

/-!
Verification development for the pyosm request/cache/object-mapping layer.

The definitions below are a shallow embedding of `src/pyosm/osm.py` (the
package copy; `osm.py` at the repository root is the legacy duplicate with
the same gateway logic).  Python dictionaries are modelled as
insertion-ordered association lists with unique keys, JSON values as an
inductive type, exceptions as an explicit error type, and the network and
JSON-parsing collaborators as oracles supplied to each call.
-/

/-- A Python `dict` with string keys: an insertion-ordered association list.
The operations below maintain key uniqueness exactly as CPython does
(assignment to an existing key replaces the value in place, a new key is
appended at the end). -/
abbrev PyDict (α : Type) : Type := List (String × α)

/-- Python `d[k]` as a lookup: the value at the first (unique) occurrence of
the key, or `none` when the key is absent. -/
def dictGet {α : Type} : PyDict α → String → Option α
  | [], _ => none
  | p :: rest, k => if p.1 = k then some p.2 else dictGet rest k

/-- Python `d[k] = v`: replace in place when the key is present, append
otherwise. -/
def dictSet {α : Type} : PyDict α → String → α → PyDict α
  | [], k, v => [(k, v)]
  | p :: rest, k, v => if p.1 = k then (k, v) :: rest else p :: dictSet rest k v

/-- Python `d.update(e)`: assign every pair of `e` into `d`, in order. -/
def dictUpdate {α : Type} (d e : PyDict α) : PyDict α :=
  e.foldl (fun acc p => dictSet acc p.1 p.2) d

/-- Well-formedness of a Python dict literal: its keys are distinct (a real
Python dict can never hold a duplicate key). -/
def DictWF {α : Type} (d : PyDict α) : Prop := (d.map Prod.fst).Nodup

instance {α : Type} (d : PyDict α) : Decidable (DictWF d) := by
  unfold DictWF
  infer_instance

/-- Decoded JSON values, as returned by the `json.loads` collaborator.
Numeric payloads are modelled as integers; no claim depends on
floating-point semantics.  An object's fields are a `PyDict Json` (written
out literally for the nested-inductive kernel check). -/
inductive Json where
  | null
  | bool (b : Bool)
  | num (n : Int)
  | str (s : String)
  | arr (elems : List Json)
  | obj (fields : List (String × Json))

mutual

/-- Structural (Python `==`) equality on decoded JSON values. -/
def Json.beq : Json → Json → Bool
  | .null, .null => true
  | .bool a, .bool b => a == b
  | .num a, .num b => a == b
  | .str a, .str b => a == b
  | .arr xs, .arr ys => Json.beqArr xs ys
  | .obj xs, .obj ys => Json.beqObj xs ys
  | _, _ => false

/-- Elementwise `Json.beq` on JSON arrays. -/
def Json.beqArr : List Json → List Json → Bool
  | [], [] => true
  | x :: xs, y :: ys => Json.beq x y && Json.beqArr xs ys
  | _, _ => false

/-- Pairwise `Json.beq` on JSON object field lists. -/
def Json.beqObj : List (String × Json) → List (String × Json) → Bool
  | [], [] => true
  | (k1, v1) :: xs, (k2, v2) :: ys => k1 == k2 && Json.beq v1 v2 && Json.beqObj xs ys
  | _, _ => false

end

mutual

/-- `Json.beq` decides equality of JSON values. -/
theorem Json.beq_iff : ∀ (a b : Json), Json.beq a b = true ↔ a = b
  | .null, .null => by simp [Json.beq]
  | .bool a, .bool b => by simp [Json.beq]
  | .num a, .num b => by simp [Json.beq]
  | .str a, .str b => by simp [Json.beq]
  | .arr xs, .arr ys => by simpa [Json.beq] using Json.beqArr_iff xs ys
  | .obj xs, .obj ys => by simpa [Json.beq] using Json.beqObj_iff xs ys
  | .null, .bool _ | .null, .num _ | .null, .str _ | .null, .arr _ | .null, .obj _
  | .bool _, .null | .bool _, .num _ | .bool _, .str _ | .bool _, .arr _ | .bool _, .obj _
  | .num _, .null | .num _, .bool _ | .num _, .str _ | .num _, .arr _ | .num _, .obj _
  | .str _, .null | .str _, .bool _ | .str _, .num _ | .str _, .arr _ | .str _, .obj _
  | .arr _, .null | .arr _, .bool _ | .arr _, .num _ | .arr _, .str _ | .arr _, .obj _
  | .obj _, .null | .obj _, .bool _ | .obj _, .num _ | .obj _, .str _ | .obj _, .arr _ =>
      by simp [Json.beq]

/-- `Json.beqArr` decides equality of JSON arrays. -/
theorem Json.beqArr_iff : ∀ (xs ys : List Json), Json.beqArr xs ys = true ↔ xs = ys
  | [], [] => by simp [Json.beqArr]
  | x :: xs, y :: ys => by simp [Json.beqArr, Json.beq_iff x y, Json.beqArr_iff xs ys]
  | [], _ :: _ | _ :: _, [] => by simp [Json.beqArr]

/-- `Json.beqObj` decides equality of JSON object field lists. -/
theorem Json.beqObj_iff :
    ∀ (xs ys : List (String × Json)), Json.beqObj xs ys = true ↔ xs = ys
  | [], [] => by simp [Json.beqObj]
  | (k1, v1) :: xs, (k2, v2) :: ys => by
      simp [Json.beqObj, Json.beq_iff v1 v2, Json.beqObj_iff xs ys, Prod.ext_iff, and_assoc]
  | [], _ :: _ | _ :: _, [] => by simp [Json.beqObj]

end

instance : DecidableEq Json := fun a b => decidable_of_iff _ (Json.beq_iff a b)

instance : BEq Json := ⟨Json.beq⟩

/-- Python truthiness of a decoded JSON value: `None`, `False`, `0`, the
empty string, the empty list and the empty dict are falsy. -/
def pyTruthy : Json → Bool
  | .null => false
  | .bool b => b
  | .num n => decide (n ≠ 0)
  | .str s => decide (s ≠ "")
  | .arr xs => decide (xs ≠ [])
  | .obj kvs => decide (kvs ≠ [])

/-- Python exceptions reachable in the embedded code.  `osmException`
realizes the specification's discriminated ServiceError, carrying the
endpoint URL, the full parameter set and the error payload (the raw body is
carried as a JSON string, matching the Python `str` it is). -/
inductive PyError where
  | osmException (url : String) (values : PyDict String) (payload : Json)
  | indexError
  | keyError
  | typeError
  | valueError
  deriving DecidableEq

/-- Python `k in obj` for a decoded JSON value: key membership for a dict,
element membership for a list, substring test for a string, `TypeError`
otherwise. -/
def pyContains (obj : Json) (k : String) : Except PyError Bool :=
  match obj with
  | .obj kvs => .ok (dictGet kvs k).isSome
  | .arr xs => .ok (xs.any (fun x => x == .str k))
  | .str s => .ok (decide (List.IsInfix k.toList s.toList))
  | _ => .error .typeError

/-- Python `obj[k]` for a decoded JSON value, with a string key: dict lookup
(`KeyError` when absent); `TypeError` on any other JSON value (list and
string indices must be integers). -/
def pyIndexStr (obj : Json) (k : String) : Except PyError Json :=
  match obj with
  | .obj kvs =>
    match dictGet kvs k with
    | some v => .ok v
    | none => .error .keyError
  | _ => .error .typeError

theorem dictUpdate_nil {α : Type} (d : PyDict α) : dictUpdate d [] = d := rfl

theorem dictUpdate_cons {α : Type} (d : PyDict α) (p : String × α) (e : PyDict α) :
    dictUpdate d (p :: e) = dictUpdate (dictSet d p.1 p.2) e := rfl

theorem dictGet_dictSet_self {α : Type} (d : PyDict α) (k : String) (v : α) :
    dictGet (dictSet d k v) k = some v := by
  induction d with
  | nil => simp [dictGet, dictSet]
  | cons p rest ih =>
    by_cases h : p.1 = k
    · simp [dictSet, h, dictGet]
    · simp [dictSet, h, dictGet, ih]

theorem dictGet_dictSet_ne {α : Type} (d : PyDict α) (k k' : String) (v : α)
    (h : k' ≠ k) : dictGet (dictSet d k' v) k = dictGet d k := by
  induction d with
  | nil => simp [dictGet, dictSet, h]
  | cons p rest ih =>
    rw [dictSet]
    by_cases hp : p.1 = k'
    · have hpk : p.1 ≠ k := by rw [hp]; exact h
      rw [if_pos hp, dictGet, dictGet, if_neg h, if_neg hpk]
    · rw [if_neg hp, dictGet, dictGet]
      by_cases hk : p.1 = k
      · rw [if_pos hk, if_pos hk]
      · rw [if_neg hk, if_neg hk]
        exact ih

theorem dictGet_eq_none_iff {α : Type} (d : PyDict α) (k : String) :
    dictGet d k = none ↔ k ∉ d.map Prod.fst := by
  induction d with
  | nil => simp [dictGet]
  | cons p rest ih =>
    by_cases h : p.1 = k
    · simp [dictGet, h]
    · simp [dictGet, h, ih, Ne.symm h]

theorem dictGet_dictUpdate_of_none {α : Type} (d e : PyDict α) (k : String)
    (h : dictGet e k = none) : dictGet (dictUpdate d e) k = dictGet d k := by
  induction e generalizing d with
  | nil => simp [dictUpdate_nil]
  | cons p rest ih =>
    rw [dictUpdate_cons]
    rw [dictGet] at h
    by_cases hp : p.1 = k
    · simp [hp] at h
    · simp only [hp, if_false] at h
      rw [ih _ h, dictGet_dictSet_ne _ _ _ _ hp]

theorem dictGet_dictUpdate_of_some {α : Type} (d e : PyDict α) (k : String) (v : α)
    (hwf : DictWF e) (h : dictGet e k = some v) :
    dictGet (dictUpdate d e) k = some v := by
  induction e generalizing d with
  | nil => simp [dictGet] at h
  | cons p rest ih =>
    rw [dictUpdate_cons]
    rw [dictGet] at h
    have hwf' : DictWF rest := (List.nodup_cons.mp hwf).2
    by_cases hp : p.1 = k
    · simp only [hp, if_true] at h
      have hnone : dictGet rest k = none := by
        rw [dictGet_eq_none_iff]
        have := (List.nodup_cons.mp hwf).1
        rw [hp] at this
        exact this
      rw [dictGet_dictUpdate_of_none _ _ _ hnone, ← h, ← hp, dictGet_dictSet_self]
    · simp only [hp, if_false] at h
      exact ih _ hwf' h

/-- The credential fields read by `Accessor.__call__` when building the
parameter set: `apiid`/`token` always, `userid`/`secret` for
non-authorising calls. -/
structure Auth where
  apiid : String
  token : String
  userid : String
  secret : String

/-- `Accessor.BASE_URL`. -/
def BASE_URL : String := "https://www.onlinescoutmanager.co.uk/"

/-- `url = self.BASE_URL + query`. -/
def Accessor.reqUrl (query : String) : String := BASE_URL ++ query

/-- The parameter set built by `Accessor.__call__`: the identity dict, then
`values.update(\x7b'userid': ..., 'secret': ...\x7d)` when not authorising,
then `values.update(fields)` when `fields` is truthy (not `None` and
non-empty). -/
def buildValues (auth : Auth) (fields : Option (PyDict String)) (authorising : Bool) :
    PyDict String :=
  let values : PyDict String := [("apiid", auth.apiid), ("token", auth.token)]
  let values :=
    if authorising then values
    else dictUpdate values [("userid", auth.userid), ("secret", auth.secret)]
  match fields with
  | some f => if f.isEmpty then values else dictUpdate values f
  | none => values

/-- `urllib.urlencode(values)`: a deterministic textual serialization of the
parameter dict in insertion order.  Percent-escaping is abstracted away; the
claims rely only on the encoding being a function of the dict. -/
def urlencode (d : PyDict String) : String :=
  String.intercalate "&" (d.map (fun p => p.1 ++ "=" ++ p.2))

/-- Python `repr` of the urlencoded string (quote-escaping abstracted; the
cache key only needs this to be deterministic). -/
def pyReprStr (s : String) : String := "\x27" ++ s ++ "\x27"

/-- The process-wide cache `Accessor.__cache__`: a dict from cache-key
strings to previously decoded JSON values. -/
abbrev Cache : Type := PyDict Json

/-- The cache key `k = url + repr(data)` used by `__cache_lookup__` and
`__cache_set__`. -/
def cacheKey (url data : String) : String := url ++ pyReprStr data

/-- `Accessor.__cache_lookup__`: the cached value at the key, or `None`. -/
def Accessor.cacheLookup (c : Cache) (url data : String) : Option Json :=
  dictGet c (cacheKey url data)

/-- `Accessor.__cache_set__`. -/
def Accessor.cacheSet (c : Cache) (url data : String) (v : Json) : Cache :=
  dictSet c (cacheKey url data) v

/-- The transport and JSON collaborators for one network call: `raw` is the
body returned by `urllib2.urlopen(req).read()`, and `decoded` is
`json.loads(raw)` (with `none` standing for a `ValueError` on a malformed
body). -/
structure Response where
  raw : String
  decoded : Option Json

deriving instance DecidableEq for Except

/-- The observable result of one `Accessor.__call__`: the returned value or
the exception raised, the cache as left behind, and whether the transport
was contacted. -/
structure CallResult where
  outcome : Except PyError Json
  cache : Cache
  network : Bool
  deriving DecidableEq

/-- The cache visible to a call after the optional `clear_cache` eviction at
the top of `Accessor.__call__`. -/
def Accessor.effCache (cache : Cache) (clear_cache : Bool) : Cache :=
  if clear_cache then [] else cache

/-- Response classification in the network path of `Accessor.__call__`:
re-raise the `IndexError` of `result[0]` on an empty body, raise
`OSMException` with the raw body unless the first character is an opening
bracket or brace, decode, raise `OSMException` with the `error`/`err`
payload when that field is present, otherwise return the decoded object. -/
def Accessor.classify (url : String) (values : PyDict String) (t : Response) :
    Except PyError Json :=
  if t.raw = "" then .error .indexError
  else if t.raw.front = '[' ∨ t.raw.front = '\x7b' then
    match t.decoded with
    | none => .error .valueError
    | some obj =>
      match pyContains obj "error" with
      | .error e => .error e
      | .ok true =>
        match pyIndexStr obj "error" with
        | .ok p => .error (.osmException url values p)
        | .error e => .error e
      | .ok false =>
        match pyContains obj "err" with
        | .error e => .error e
        | .ok true =>
          match pyIndexStr obj "err" with
          | .ok p => .error (.osmException url values p)
          | .error e => .error e
        | .ok false => .ok obj
  else .error (.osmException url values (.str t.raw))

/-- The network-path tail of `Accessor.__call__` (executed when the cache
lookup did not produce a truthy value): classify the response, and on
success (`__cache_set__` is the line right after the error checks) memoize
the decoded object; every raise leaves the cache as it was. -/
def Accessor.networkFetch (url : String) (values : PyDict String) (data : String)
    (cache0 : Cache) (t : Response) : CallResult :=
  match Accessor.classify url values t with
  | .ok obj => ⟨.ok obj, Accessor.cacheSet cache0 url data obj, true⟩
  | .error e => ⟨.error e, cache0, true⟩

/-- `Accessor.__call__` of `src/pyosm/osm.py`: clear the cache on demand,
build the parameter set, look the encoded request up in the cache, and serve
the cached object only when it is truthy (`if not obj:`), otherwise run the
network path.  The intermediate `url`, `values` and `data` locals of the
source are inlined. -/
def Accessor.call (auth : Auth) (cache : Cache) (query : String)
    (fields : Option (PyDict String)) (authorising clear_cache : Bool)
    (t : Response) : CallResult :=
  match Accessor.cacheLookup (Accessor.effCache cache clear_cache) (Accessor.reqUrl query)
      (urlencode (buildValues auth fields authorising)) with
  | some obj =>
    if pyTruthy obj then ⟨.ok obj, Accessor.effCache cache clear_cache, false⟩
    else
      Accessor.networkFetch (Accessor.reqUrl query) (buildValues auth fields authorising)
        (urlencode (buildValues auth fields authorising)) (Accessor.effCache cache clear_cache) t
  | none =>
      Accessor.networkFetch (Accessor.reqUrl query) (buildValues auth fields authorising)
        (urlencode (buildValues auth fields authorising)) (Accessor.effCache cache clear_cache) t

/-- The cache states that send `Accessor.__call__` down the network path:
no entry at the key, or an entry holding a (Python-falsy) value that
`if not obj:` treats as a miss. -/
def networkForced (c : Cache) (url data : String) : Bool :=
  match Accessor.cacheLookup c url data with
  | none => true
  | some v => !pyTruthy v

theorem Accessor.networkFetch_of_ok (url : String) (values : PyDict String)
    (data : String) (cache0 : Cache) (t : Response) (v : Json)
    (h : (Accessor.networkFetch url values data cache0 t).outcome = .ok v) :
    Accessor.networkFetch url values data cache0 t
      = ⟨.ok v, Accessor.cacheSet cache0 url data v, true⟩ := by
  unfold Accessor.networkFetch at h ⊢
  cases hc : Accessor.classify url values t with
  | ok obj => rw [hc] at h; simp_all
  | error e => rw [hc] at h; simp_all

theorem Accessor.networkFetch_of_error (url : String) (values : PyDict String)
    (data : String) (cache0 : Cache) (t : Response) (e : PyError)
    (h : (Accessor.networkFetch url values data cache0 t).outcome = .error e) :
    Accessor.networkFetch url values data cache0 t = ⟨.error e, cache0, true⟩ := by
  unfold Accessor.networkFetch at h ⊢
  cases hc : Accessor.classify url values t with
  | ok obj => rw [hc] at h; simp_all
  | error e0 => rw [hc] at h; simp_all

theorem Accessor.call_of_hit (auth : Auth) (cache : Cache) (query : String)
    (fields : Option (PyDict String)) (authorising clear_cache : Bool) (t : Response)
    (v : Json)
    (h : Accessor.cacheLookup (Accessor.effCache cache clear_cache) (Accessor.reqUrl query)
          (urlencode (buildValues auth fields authorising)) = some v)
    (hv : pyTruthy v = true) :
    Accessor.call auth cache query fields authorising clear_cache t
      = ⟨.ok v, Accessor.effCache cache clear_cache, false⟩ := by
  unfold Accessor.call
  rw [h]
  simp [hv]

theorem Accessor.call_of_forced (auth : Auth) (cache : Cache) (query : String)
    (fields : Option (PyDict String)) (authorising clear_cache : Bool) (t : Response)
    (h : networkForced (Accessor.effCache cache clear_cache) (Accessor.reqUrl query)
          (urlencode (buildValues auth fields authorising)) = true) :
    Accessor.call auth cache query fields authorising clear_cache t
      = Accessor.networkFetch (Accessor.reqUrl query) (buildValues auth fields authorising)
          (urlencode (buildValues auth fields authorising))
          (Accessor.effCache cache clear_cache) t := by
  unfold networkForced at h
  unfold Accessor.call
  cases hc : Accessor.cacheLookup (Accessor.effCache cache clear_cache) (Accessor.reqUrl query)
      (urlencode (buildValues auth fields authorising)) with
  | some obj => rw [hc] at h; simp_all
  | none => rfl

theorem Accessor.cacheLookup_cacheSet_self (c : Cache) (url data : String) (v : Json) :
    Accessor.cacheLookup (Accessor.cacheSet c url data v) url data = some v :=
  dictGet_dictSet_self _ _ _

theorem Accessor.call_ok_cached (auth : Auth) (cache : Cache) (query : String)
    (fields : Option (PyDict String)) (authorising clear_cache : Bool) (t : Response)
    (v : Json)
    (h : (Accessor.call auth cache query fields authorising clear_cache t).outcome = .ok v) :
    Accessor.cacheLookup (Accessor.call auth cache query fields authorising clear_cache t).cache
        (Accessor.reqUrl query) (urlencode (buildValues auth fields authorising))
      = some v := by
  unfold Accessor.call at h ⊢
  revert h
  cases hc : Accessor.cacheLookup (Accessor.effCache cache clear_cache) (Accessor.reqUrl query)
      (urlencode (buildValues auth fields authorising)) with
  | some obj =>
    intro h
    by_cases hv : pyTruthy obj
    · simp [hv] at h ⊢
      subst h
      exact hc
    · simp [hv] at h ⊢
      rw [Accessor.networkFetch_of_ok _ _ _ _ _ _ h]
      exact Accessor.cacheLookup_cacheSet_self _ _ _ _
  | none =>
    intro h
    simp at h ⊢
    rw [Accessor.networkFetch_of_ok _ _ _ _ _ _ h]
    exact Accessor.cacheLookup_cacheSet_self _ _ _ _

theorem Accessor.call_error_cache (auth : Auth) (cache : Cache) (query : String)
    (fields : Option (PyDict String)) (authorising clear_cache : Bool) (t : Response)
    (e : PyError)
    (h : (Accessor.call auth cache query fields authorising clear_cache t).outcome = .error e) :
    (Accessor.call auth cache query fields authorising clear_cache t).cache
      = Accessor.effCache cache clear_cache := by
  unfold Accessor.call at h ⊢
  revert h
  cases hc : Accessor.cacheLookup (Accessor.effCache cache clear_cache) (Accessor.reqUrl query)
      (urlencode (buildValues auth fields authorising)) with
  | some obj =>
    intro h
    by_cases hv : pyTruthy obj
    · simp [hv] at h
    · simp [hv] at h ⊢
      rw [Accessor.networkFetch_of_error _ _ _ _ _ _ h]
  | none =>
    intro h
    simp at h ⊢
    rw [Accessor.networkFetch_of_error _ _ _ _ _ _ h]

theorem networkForced_eq_false (c : Cache) (url data : String)
    (h : networkForced c url data = false) :
    ∃ v, Accessor.cacheLookup c url data = some v ∧ pyTruthy v = true := by
  unfold networkForced at h
  revert h
  cases hc : Accessor.cacheLookup c url data with
  | some w =>
    intro h
    simp at h
    exact ⟨w, rfl, h⟩
  | none =>
    intro h
    simp at h

/-- `Authorisor.__init__`: `apiid`/`token` fixed at construction,
`userid`/`secret` start as `None` and hold decoded JSON credential values
after a successful authorisation. -/
structure Authorisor where
  apiid : String
  token : String
  userid : Option Json
  secret : Option Json

/-- The observable outcome of `Authorisor.authorise`: the credential holder
afterwards, the cache left behind by the gateway call, and the exception if
one propagated. -/
structure AuthoriseResult where
  auth : Authorisor
  cache : Cache
  err : Option PyError

/-- The gateway call made inside `Authorisor.authorise`.  With
`authorising=True` the gateway never reads `userid`/`secret`, so the string
placeholders passed for them below are never used (in the source they are
the holder's `None` values, equally unread). -/
def Authorisor.authoriseCall (a : Authorisor) (cache : Cache) (email password : String)
    (t : Response) : CallResult :=
  Accessor.call ⟨a.apiid, a.token, "", ""⟩ cache "users.php?action=authorise"
    (some [("email", email), ("password", password)]) true false t

/-- `Authorisor.authorise`: one authorising gateway call; on success assign
`self.userid = creds['userid']`, then `self.secret = creds['secret']` (each
dict lookup can raise `KeyError`, in which case the assignments made so far
stand). -/
def Authorisor.authorise (a : Authorisor) (cache : Cache) (email password : String)
    (t : Response) : AuthoriseResult :=
  match a.authoriseCall cache email password t with
  | ⟨.error e, c, _⟩ => ⟨a, c, some e⟩
  | ⟨.ok creds, c, _⟩ =>
    match pyIndexStr creds "userid" with
    | .error e => ⟨a, c, some e⟩
    | .ok u =>
      match pyIndexStr creds "secret" with
      | .error e => ⟨⟨a.apiid, a.token, some u, a.secret⟩, c, some e⟩
      | .ok s => ⟨⟨a.apiid, a.token, some u, some s⟩, c, none⟩

/-- A `Term`'s parsed `startdate`/`enddate` (calendar instants modelled as
integers; the `strptime` parsing of `Term.__init__` is a collaborator
concern). -/
structure Term where
  startdate : Int
  enddate : Int

/-- `Term.is_active`: `now` strictly between `startdate` and `enddate`. -/
def Term.is_active (term : Term) (now : Int) : Bool :=
  decide (term.startdate < now) && decide (now < term.enddate)

/-- The active-term selection of `Section.__init__`: filter the section's
terms down to the active ones and take `self.terms[0]`, which raises
`IndexError` when no term is active; with several simultaneously active
terms the first is returned and no error of any kind is raised (the source
marks the missing check with a TODO comment). -/
def Section.selectActiveTerm (terms : List Term) (now : Int) : Except PyError Term :=
  match terms.filter (fun term => term.is_active now) with
  | [] => .error .indexError
  | term :: _ => .ok term

/-- `OSMObject.__getitem__`: a dict lookup; the bare `except` turns any
failure into `KeyError`. -/
def OSMObject.getItem (record : PyDict Json) (key : String) : Except PyError Json :=
  match dictGet record key with
  | some v => .ok v
  | none => .error .keyError

/-- `OSMObject.__setitem__`: `self._record[key] = value` inside
`try/except`.  Assignment into a dict always succeeds (inserting the key
when it is absent), so the `KeyError` branch is unreachable for the
dict-backed records the repository constructs; the `Except` result records
the error channel the source declares. -/
def OSMObject.setItem (record : PyDict Json) (key : String) (v : Json) :
    Except PyError (PyDict Json) :=
  .ok (dictSet record key v)

/-- `v.replace(' ', '')` as applied to column-map values in
`Member.__init__`: every space character is deleted. -/
def stripSpaces (s : String) : String := String.mk (s.data.filter (fun c => c ≠ ' '))

/-- The column map after `Member.__init__` strips spaces from each value in
place. -/
def Member.mkColumnMap (column_map : PyDict String) : PyDict String :=
  column_map.map (fun p => (p.1, stripSpaces p.2))

/-- `self._reverse_column_map = dict(reversed(list(i)) for i in
column_map.items())`, built from the already space-stripped column map (the
stripping mutates `column_map` in place first): a dict built from the
swapped pairs, later duplicates overwriting earlier ones exactly as Python
`dict(pairs)` does. -/
def Member.mkReverseMap (column_map : PyDict String) : PyDict String :=
  dictUpdate [] ((Member.mkColumnMap column_map).map (fun p => (p.2, p.1)))

/-- `Member.__getitem__`: try the record key literally, on failure resolve
the key as a display name through `_reverse_column_map`; `KeyError` when
both fail. -/
def Member.getItem (record : PyDict Json) (rmap : PyDict String) (key : String) :
    Except PyError Json :=
  match dictGet record key with
  | some v => .ok v
  | none =>
    match dictGet rmap key with
    | some storage =>
      match dictGet record storage with
      | some v => .ok v
      | none => .error .keyError
    | none => .error .keyError

/-- `Member.__setitem__`: the outer `try` assigns
`self._record[key] = value`, which for a dict record always succeeds
(creating the key when absent), and then appends `key` to `_changed_keys`
when not already present.  The alias fall-back branch and the trailing
unconditional `raise KeyError` of the source are therefore unreachable. -/
def Member.setItem (record : PyDict Json) (changed : List String) (key : String)
    (v : Json) : PyDict Json × List String :=
  (dictSet record key v,
   if changed.contains key then changed else changed ++ [key])

/-- The update endpoint of `Member.save`. -/
def Member.update_url : String := "users.php?action=updateMember&dateFormat=generic"

/-- The create endpoint of `Member.save` (the unused `patrol_url` of the
source is omitted). -/
def Member.create_url : String := "users.php?action=newMember"

/-- The loop building the `fields` dict in `Member.save`: one entry per
changed key, each read raw from `self._record` (a key that vanished from
the record would raise `KeyError`). -/
def Member.buildFieldsAux (record : PyDict Json) (acc : PyDict Json) :
    List String → Except PyError (PyDict Json)
  | [] => .ok acc
  | k :: rest =>
    match dictGet record k with
    | some v => Member.buildFieldsAux record (dictSet acc k v) rest
    | none => .error .keyError

/-- `fields` as built by `Member.save` from `_changed_keys`. -/
def Member.buildFields (record : PyDict Json) (changed : List String) :
    Except PyError (PyDict Json) :=
  Member.buildFieldsAux record [] changed

/-- The parameter dict of one per-field update call, in the source's
literal order. -/
def Member.mkUpdFields (scoutid : Json) (column : String) (v : Json) (sectionid : Json) :
    PyDict Json :=
  [("scoutid", scoutid), ("column", .str column), ("value", v), ("sectionid", sectionid)]

/-- One iteration of the update loop in `Member.save`: resolve the column
through `_reverse_column_map` (a raw dict access that raises `KeyError`
when the changed key is not a known display name), issue the update call,
and compare the echoed column of the response with the submitted value.
Returns the echo check together with the issued call. -/
def Member.updateOne (scoutid sectionid : Json) (rmap : PyDict String)
    (env : String → PyDict Json → Json) (key : String) (v : Json) :
    Except PyError (Bool × (String × PyDict Json)) :=
  match dictGet rmap key with
  | none => .error .keyError
  | some column =>
    match pyIndexStr (env Member.update_url (Member.mkUpdFields scoutid column v sectionid))
        column with
    | .error e => .error e
    | .ok echo =>
      .ok (Json.beq echo v,
        (Member.update_url, Member.mkUpdFields scoutid column v sectionid))

/-- The update loop of `Member.save` over the entries of `fields` (dict
iteration order): `result` starts `True` and drops to `False` on any
mismatching echo; the issued calls are collected in order.  The
`self['scoutid']` re-read on each iteration equals the value read at the
top of `save` because the loop never writes the record. -/
def Member.updateLoop (scoutid sectionid : Json) (rmap : PyDict String)
    (env : String → PyDict Json → Json) :
    List (String × Json) → Except PyError (Bool × List (String × PyDict Json))
  | [] => .ok (true, [])
  | (k, v) :: rest =>
    match Member.updateOne scoutid sectionid rmap env k v with
    | .error e => .error e
    | .ok r1 =>
      match Member.updateLoop scoutid sectionid rmap env rest with
      | .error e => .error e
      | .ok rr => .ok (r1.1 && rr.1, r1.2 :: rr.2)

/-- The observable outcome of `Member.save`: the member record and change
list afterwards, the value returned (`None` on the create path — the source
falls off the end — and the aggregate result on the update path), and the
gateway calls issued, in order, as (url, fields) pairs. -/
structure SaveResult where
  record : PyDict Json
  changed : List String
  retval : Option Bool
  calls : List (String × PyDict Json)

/-- `Member.save` of `src/pyosm/osm.py`.  The gateway is abstracted as an
oracle `env` from the (url, fields) of a call to its decoded response
(every call passes `clear_cache=True`); `sectionid` stands for
`self._section['sectionid']`. -/
def Member.save (record : PyDict Json) (changed : List String) (rmap : PyDict String)
    (sectionid : Json) (env : String → PyDict Json → Json) :
    Except PyError SaveResult :=
  match Member.getItem record rmap "scoutid" with
  | .error e => .error e
  | .ok scoutid =>
    if scoutid = .str "" then
      match Member.buildFields record changed with
      | .error e => .error e
      | .ok f0 =>
        match pyIndexStr (env Member.create_url (dictSet f0 "sectionid" sectionid))
            "scoutid" with
        | .error e => .error e
        | .ok newsid =>
          let rc := Member.setItem record changed "scoutid" newsid
          .ok ⟨rc.1, rc.2, none, [(Member.create_url, dictSet f0 "sectionid" sectionid)]⟩
    else
      match Member.buildFields record changed with
      | .error e => .error e
      | .ok f =>
        match Member.updateLoop scoutid sectionid rmap env f with
        | .error e => .error e
        | .ok r => .ok ⟨record, changed, some r.1, r.2⟩

theorem buildValues_some_nil (auth : Auth) (authorising : Bool) :
    buildValues auth (some []) authorising = buildValues auth none authorising := by
  cases authorising <;> rfl

theorem buildValues_some_ne_nil (auth : Auth) (fields : PyDict String) (authorising : Bool)
    (hf : fields ≠ []) :
    buildValues auth (some fields) authorising
      = dictUpdate (buildValues auth none authorising) fields := by
  cases fields with
  | nil => exact absurd rfl hf
  | cons p rest => cases authorising <;> rfl

theorem buildValues_none_apiid (auth : Auth) (authorising : Bool) :
    dictGet (buildValues auth none authorising) "apiid" = some auth.apiid := by
  cases authorising <;> rfl

theorem buildValues_none_token (auth : Auth) (authorising : Bool) :
    dictGet (buildValues auth none authorising) "token" = some auth.token := by
  cases authorising <;> rfl

theorem buildValues_none_userid (auth : Auth) :
    dictGet (buildValues auth none false) "userid" = some auth.userid := rfl

theorem buildValues_none_secret (auth : Auth) :
    dictGet (buildValues auth none false) "secret" = some auth.secret := rfl

/-- Claim C1 is false as stated: `values.update(fields)` runs last in
`Accessor.__call__`, so a caller-supplied `apiid` replaces the credential
holder's value in the sent parameter set. -/
theorem c1_counterexample :
    dictGet (buildValues ⟨"A", "T", "U", "S"⟩ (some [("apiid", "X")]) false) "apiid"
        = some "X"
  ∧ ("X" : String) ≠ "A" := by
  constructor
  · rfl
  · decide

/-- Claim C1 (amended): the sent parameter set always contains the identity
keys, holding the credential holder's values exactly for those identity
keys the caller did not supply; `fields` is merged last, so caller-supplied
entries override the identity fields on key collision. -/
theorem c1_fields_merged_last (auth : Auth) (fields : PyDict String)
    (authorising : Bool) (hwf : DictWF fields) :
    (∀ k v, dictGet fields k = some v →
        dictGet (buildValues auth (some fields) authorising) k = some v)
  ∧ (dictGet fields "apiid" = none →
        dictGet (buildValues auth (some fields) authorising) "apiid" = some auth.apiid)
  ∧ (dictGet fields "token" = none →
        dictGet (buildValues auth (some fields) authorising) "token" = some auth.token)
  ∧ (authorising = false → dictGet fields "userid" = none →
        dictGet (buildValues auth (some fields) authorising) "userid" = some auth.userid)
  ∧ (authorising = false → dictGet fields "secret" = none →
        dictGet (buildValues auth (some fields) authorising) "secret" = some auth.secret) := by
  refine ⟨?_, ?_, ?_, ?_, ?_⟩
  · intro k v hk
    have hf : fields ≠ [] := by
      intro hnil
      rw [hnil] at hk
      cases hk
    rw [buildValues_some_ne_nil _ _ _ hf]
    exact dictGet_dictUpdate_of_some _ _ _ _ hwf hk
  · intro h2
    by_cases hf : fields = []
    · rw [hf, buildValues_some_nil, buildValues_none_apiid]
    · rw [buildValues_some_ne_nil _ _ _ hf, dictGet_dictUpdate_of_none _ _ _ h2,
        buildValues_none_apiid]
  · intro h2
    by_cases hf : fields = []
    · rw [hf, buildValues_some_nil, buildValues_none_token]
    · rw [buildValues_some_ne_nil _ _ _ hf, dictGet_dictUpdate_of_none _ _ _ h2,
        buildValues_none_token]
  · intro ha h2
    subst ha
    by_cases hf : fields = []
    · rw [hf, buildValues_some_nil, buildValues_none_userid]
    · rw [buildValues_some_ne_nil _ _ _ hf, dictGet_dictUpdate_of_none _ _ _ h2,
        buildValues_none_userid]
  · intro ha h2
    subst ha
    by_cases hf : fields = []
    · rw [hf, buildValues_some_nil, buildValues_none_secret]
    · rw [buildValues_some_ne_nil _ _ _ hf, dictGet_dictUpdate_of_none _ _ _ h2,
        buildValues_none_secret]

/-- Witness for the amended C1 at a concrete call: the caller-supplied
`apiid` wins while the untouched `token` still carries the holder's
value. -/
theorem c1_fields_merged_last_witness :
    dictGet (buildValues ⟨"A", "T", "U", "S"⟩ (some [("apiid", "X"), ("extra", "E")]) false)
        "apiid" = some "X"
  ∧ dictGet (buildValues ⟨"A", "T", "U", "S"⟩ (some [("apiid", "X"), ("extra", "E")]) false)
        "token" = some "T" :=
  ⟨(c1_fields_merged_last ⟨"A", "T", "U", "S"⟩ [("apiid", "X"), ("extra", "E")] false
      (by decide)).1 "apiid" "X" (by decide),
   (c1_fields_merged_last ⟨"A", "T", "U", "S"⟩ [("apiid", "X"), ("extra", "E")] false
      (by decide)).2.2.1 (by decide)⟩

/-- Claim C2 is false as stated: two identical calls where the first one
succeeds with a body decoding to the empty list; `if not obj:` treats the
cached empty list as a miss, so the second identical call contacts the
transport again. -/
theorem c2_counterexample :
    (Accessor.call ⟨"A", "T", "U", "S"⟩ [] "q" none false false
        ⟨"[]", some (Json.arr [])⟩).outcome = .ok (Json.arr [])
  ∧ (Accessor.call ⟨"A", "T", "U", "S"⟩
      (Accessor.call ⟨"A", "T", "U", "S"⟩ [] "q" none false false
        ⟨"[]", some (Json.arr [])⟩).cache
      "q" none false false ⟨"[]", some (Json.arr [])⟩).network = true := by
  constructor
  · decide
  · decide

/-- Claim C2 (amended): for two calls with identical endpoint and identical
full parameter set and no cache clearing, if the first call succeeds with a
value that is truthy in Python's sense (in particular any non-empty object
or list), the second call is served from the cache: no network contact (for
any transport), the same object, and an unchanged cache.  Responses
decoding to the empty list or empty object are re-fetched instead
(`c2_counterexample`). -/
theorem c2_memoized_when_truthy (auth : Auth) (cache : Cache) (query : String)
    (fields : Option (PyDict String)) (authorising : Bool) (t t2 : Response) (v : Json)
    (h1 : (Accessor.call auth cache query fields authorising false t).outcome = .ok v)
    (h2 : pyTruthy v = true) :
    Accessor.call auth (Accessor.call auth cache query fields authorising false t).cache
        query fields authorising false t2
      = ⟨.ok v, (Accessor.call auth cache query fields authorising false t).cache, false⟩ := by
  apply Accessor.call_of_hit
  · exact Accessor.call_ok_cached auth cache query fields authorising false t v h1
  · exact h2

/-- Witness for the amended C2 at a concrete call whose response decodes to
a non-empty list. -/
theorem c2_memoized_when_truthy_witness :
    Accessor.call ⟨"A", "T", "U", "S"⟩
        (Accessor.call ⟨"A", "T", "U", "S"⟩ [] "q" none false false
          ⟨"[1]", some (Json.arr [Json.num 1])⟩).cache
        "q" none false false ⟨"", none⟩
      = ⟨.ok (Json.arr [Json.num 1]),
         (Accessor.call ⟨"A", "T", "U", "S"⟩ [] "q" none false false
           ⟨"[1]", some (Json.arr [Json.num 1])⟩).cache,
         false⟩ :=
  c2_memoized_when_truthy ⟨"A", "T", "U", "S"⟩ [] "q" none false
    ⟨"[1]", some (Json.arr [Json.num 1])⟩ ⟨"", none⟩ (Json.arr [Json.num 1])
    (by decide) (by decide)

theorem Accessor.networkFetch_outcome (url : String) (values : PyDict String)
    (data : String) (cache0 : Cache) (t : Response) :
    (Accessor.networkFetch url values data cache0 t).outcome
      = Accessor.classify url values t := by
  unfold Accessor.networkFetch
  cases hc : Accessor.classify url values t with
  | ok v => rfl
  | error e => rfl

theorem Accessor.classify_empty_body (url : String) (values : PyDict String)
    (t : Response) (h : t.raw = "") :
    Accessor.classify url values t = .error .indexError := by
  unfold Accessor.classify
  rw [if_pos h]

theorem Accessor.classify_bad_body (url : String) (values : PyDict String)
    (t : Response) (h1 : t.raw ≠ "") (h2 : ¬(t.raw.front = '[' ∨ t.raw.front = '\x7b')) :
    Accessor.classify url values t = .error (.osmException url values (.str t.raw)) := by
  unfold Accessor.classify
  rw [if_neg h1, if_neg h2]

/-- Claim C3 is false as stated for the empty body: the gateway re-raises
the bare `IndexError` of `result[0]`, not the ServiceError the claim
requires. -/
theorem c3_counterexample :
    (Accessor.call ⟨"A", "T", "U", "S"⟩ [] "q" none false false ⟨"", none⟩).outcome
      = .error .indexError := by decide

/-- Claim C3 (amended): on the network path, every non-empty response body
whose first character is neither an opening bracket nor an opening brace
raises the ServiceError (`OSMException`) carrying the endpoint, the full
parameter set and the raw body — never a JSON-decode crash; an empty
response body instead propagates the `IndexError` of `result[0]`. -/
theorem c3_non_json_body_raises (auth : Auth) (cache : Cache) (query : String)
    (fields : Option (PyDict String)) (authorising clear_cache : Bool) (t : Response)
    (hnet : networkForced (Accessor.effCache cache clear_cache) (Accessor.reqUrl query)
        (urlencode (buildValues auth fields authorising)) = true) :
    (t.raw ≠ "" → t.raw.front ≠ '[' → t.raw.front ≠ '\x7b' →
      (Accessor.call auth cache query fields authorising clear_cache t).outcome
        = .error (.osmException (Accessor.reqUrl query)
            (buildValues auth fields authorising) (.str t.raw)))
  ∧ (t.raw = "" →
      (Accessor.call auth cache query fields authorising clear_cache t).outcome
        = .error .indexError) := by
  constructor
  · intro h1 h2 h3
    rw [Accessor.call_of_forced _ _ _ _ _ _ _ hnet, Accessor.networkFetch_outcome,
      Accessor.classify_bad_body _ _ _ h1 (not_or.mpr ⟨h2, h3⟩)]
  · intro h0
    rw [Accessor.call_of_forced _ _ _ _ _ _ _ hnet, Accessor.networkFetch_outcome,
      Accessor.classify_empty_body _ _ _ h0]

/-- Witness for the amended C3: a plain-text error body raises
`OSMException` with that body as payload. -/
theorem c3_non_json_body_raises_witness :
    (Accessor.call ⟨"A", "T", "U", "S"⟩ [] "q" none false false
        ⟨"Invalid key", none⟩).outcome
      = .error (.osmException (Accessor.reqUrl "q")
          (buildValues ⟨"A", "T", "U", "S"⟩ none false) (.str "Invalid key")) :=
  (c3_non_json_body_raises ⟨"A", "T", "U", "S"⟩ [] "q" none false false
      ⟨"Invalid key", none⟩ (by decide)).1 (by decide) (by decide) (by decide)

/-- Claim C4 (code bug): evaluated on a term list with two simultaneously
active terms, `Section.__init__` raises nothing and silently selects the
first one; with zero active terms it raises a bare `IndexError`.  No
`ConfigurationError` exists anywhere in the source — the missing check is
marked with a TODO comment. -/
theorem c4_code_picks_first_active_term :
    Section.selectActiveTerm [⟨0, 10⟩, ⟨0, 10⟩] 5 = .ok ⟨0, 10⟩
  ∧ Section.selectActiveTerm [] 5 = .error .indexError := by
  constructor
  · rfl
  · rfl

theorem dictSet_eq_append {α : Type} (d : PyDict α) (k : String) (v : α)
    (h : dictGet d k = none) : dictSet d k v = d ++ [(k, v)] := by
  induction d with
  | nil => rfl
  | cons p rest ih =>
    rw [dictGet] at h
    by_cases hp : p.1 = k
    · rw [if_pos hp] at h
      cases h
    · rw [if_neg hp] at h
      rw [dictSet, if_neg hp, ih h, List.cons_append]

/-- Claim C5 is false as stated: `set` on the absent key "b" raises nothing
— it succeeds and creates the new top-level field, changing the mapping. -/
theorem c5_counterexample :
    OSMObject.setItem [("a", Json.null)] "b" (Json.str "x")
      = .ok [("a", Json.null), ("b", Json.str "x")]
  ∧ dictGet [("a", (Json.null : Json))] "b" = none := by
  constructor
  · rfl
  · rfl

/-- Claim C5 (amended): `set` on a key not structurally present in the
owned mapping never raises NotFound — it succeeds, appending the new
top-level field while leaving every existing key's value unchanged (the
`KeyError` branch of the source is unreachable for dict-backed records). -/
theorem c5_set_creates_field (record : PyDict Json) (key : String) (v : Json)
    (habs : dictGet record key = none) :
    OSMObject.setItem record key v = .ok (record ++ [(key, v)])
  ∧ dictGet (record ++ [(key, v)]) key = some v
  ∧ (∀ k, k ≠ key → dictGet (record ++ [(key, v)]) k = dictGet record k) := by
  refine ⟨?_, ?_, ?_⟩
  · unfold OSMObject.setItem
    rw [dictSet_eq_append _ _ _ habs]
  · rw [← dictSet_eq_append _ _ _ habs]
    exact dictGet_dictSet_self _ _ _
  · intro k hk
    rw [← dictSet_eq_append _ _ _ habs]
    exact dictGet_dictSet_ne _ _ _ _ (Ne.symm hk)

/-- Witness for the amended C5: setting a fresh key on a one-field record
succeeds and appends the field. -/
theorem c5_set_creates_field_witness :
    OSMObject.setItem [("scoutid", Json.str "")] "startedsection" (Json.str "02/12/2012")
      = .ok [("scoutid", Json.str ""), ("startedsection", Json.str "02/12/2012")] :=
  (c5_set_creates_field [("scoutid", Json.str "")] "startedsection"
      (Json.str "02/12/2012") (by decide)).1

/-- Claim C6 is false as stated: with the alias table built by
`Member.__init__` from the column map sending storage key "custom1" to
display name "Parent Name" (stripped to "ParentName"), setting through the
display name stores under the literal display-name key — the outer `try` of
`__setitem__` always succeeds on a dict — so reading through the storage
key still observes the old value, not the one just set. -/
theorem c6_counterexample :
    Member.getItem
        (Member.setItem [("custom1", Json.str "old")] [] "ParentName" (Json.str "new")).1
        (Member.mkReverseMap [("custom1", "Parent Name")]) "custom1"
      = .ok (Json.str "old")
  ∧ Json.str "old" ≠ Json.str "new" := by
  constructor
  · decide
  · decide

/-- Claim C6 (amended): `get` tries the key literally against the record
and then resolves it as a display name via the inverse map, raising
NotFound (`KeyError`) when both fail; `set`, by contrast, always stores
under the given key literally — creating it when absent — and never
consults the alias table nor raises.  Hence setting via the storage key and
reading via its display name observes the value, while setting via a
display name leaves the storage key's value unchanged. -/
theorem c6_alias_resolution (record : PyDict Json) (changed : List String)
    (rmap : PyDict String) (disp storage : String) (v : Json)
    (hmap : dictGet rmap disp = some storage)
    (hlit : dictGet record disp = none)
    (hne : disp ≠ storage) :
    Member.getItem (Member.setItem record changed storage v).1 rmap disp = .ok v
  ∧ (∀ k w, (Member.setItem record changed k w).1 = dictSet record k w)
  ∧ dictGet (Member.setItem record changed disp v).1 storage = dictGet record storage
  ∧ (∀ k, dictGet record k = none → dictGet rmap k = none →
        Member.getItem record rmap k = .error .keyError) := by
  refine ⟨?_, ?_, ?_, ?_⟩
  · have hset : (Member.setItem record changed storage v).1 = dictSet record storage v := rfl
    rw [hset]
    unfold Member.getItem
    rw [dictGet_dictSet_ne _ _ _ _ (Ne.symm hne), hlit, hmap]
    simp [dictGet_dictSet_self]
  · intro k w
    rfl
  · have hset : (Member.setItem record changed disp v).1 = dictSet record disp v := rfl
    rw [hset]
    exact dictGet_dictSet_ne _ _ _ _ hne
  · intro k h1 h2
    unfold Member.getItem
    rw [h1, h2]

/-- Witness for the amended C6 at the concrete alias table of
`c6_counterexample`: setting via the storage key and reading via the
display name observes the new value, and a key known to neither table
raises `KeyError`. -/
theorem c6_alias_resolution_witness :
    Member.getItem
        (Member.setItem [("custom1", Json.str "old")] [] "custom1" (Json.str "new")).1
        (Member.mkReverseMap [("custom1", "Parent Name")]) "ParentName"
      = .ok (Json.str "new")
  ∧ Member.getItem [("custom1", Json.str "old")]
        (Member.mkReverseMap [("custom1", "Parent Name")]) "bogus"
      = .error .keyError :=
  ⟨(c6_alias_resolution [("custom1", Json.str "old")] [] _ "ParentName" "custom1"
      (Json.str "new") (by decide) (by decide) (by decide)).1,
   (c6_alias_resolution [("custom1", Json.str "old")] [] _ "ParentName" "custom1"
      (Json.str "new") (by decide) (by decide) (by decide)).2.2.2 "bogus"
      (by decide) (by decide)⟩

theorem Accessor.classify_error_field (url : String) (values : PyDict String)
    (t : Response) (kvs : List (String × Json)) (p : Json)
    (hraw : t.raw ≠ "")
    (hbr : t.raw.front = '[' ∨ t.raw.front = '\x7b')
    (hdec : t.decoded = some (Json.obj kvs))
    (herr : dictGet kvs "error" = some p ∨
        (dictGet kvs "error" = none ∧ dictGet kvs "err" = some p)) :
    Accessor.classify url values t = .error (.osmException url values p) := by
  unfold Accessor.classify
  rw [if_neg hraw, if_pos hbr, hdec]
  cases herr with
  | inl h => simp [pyContains, pyIndexStr, h]
  | inr h => simp [pyContains, pyIndexStr, h.1, h.2]

/-- Claim C8 (confirmed): on the network path, a response decoding to a
JSON object carrying an `error` field (or, when that is absent, an `err`
field) makes the gateway raise the ServiceError (`OSMException`) with that
field's value as payload; the decoded object is never stored — the cache is
exactly the post-clear input cache, so an identical call still takes the
network path. -/
theorem c8_error_field_raises_uncached (auth : Auth) (cache : Cache) (query : String)
    (fields : Option (PyDict String)) (authorising clear_cache : Bool) (t : Response)
    (kvs : List (String × Json)) (p : Json)
    (hnet : networkForced (Accessor.effCache cache clear_cache) (Accessor.reqUrl query)
        (urlencode (buildValues auth fields authorising)) = true)
    (hraw : t.raw ≠ "")
    (hbr : t.raw.front = '[' ∨ t.raw.front = '\x7b')
    (hdec : t.decoded = some (Json.obj kvs))
    (herr : dictGet kvs "error" = some p ∨
        (dictGet kvs "error" = none ∧ dictGet kvs "err" = some p)) :
    (Accessor.call auth cache query fields authorising clear_cache t).outcome
      = .error (.osmException (Accessor.reqUrl query)
          (buildValues auth fields authorising) p)
  ∧ (Accessor.call auth cache query fields authorising clear_cache t).cache
      = Accessor.effCache cache clear_cache
  ∧ networkForced (Accessor.call auth cache query fields authorising clear_cache t).cache
      (Accessor.reqUrl query) (urlencode (buildValues auth fields authorising)) = true := by
  have hcls := Accessor.classify_error_field (Accessor.reqUrl query)
    (buildValues auth fields authorising) t kvs p hraw hbr hdec herr
  have hout : (Accessor.call auth cache query fields authorising clear_cache t).outcome
      = .error (.osmException (Accessor.reqUrl query) (buildValues auth fields authorising) p) := by
    rw [Accessor.call_of_forced _ _ _ _ _ _ _ hnet, Accessor.networkFetch_outcome, hcls]
  have hcache := Accessor.call_error_cache auth cache query fields authorising clear_cache t
    _ hout
  refine ⟨hout, hcache, ?_⟩
  rw [hcache]
  exact hnet

/-- Witness for C8 at a concrete call: a decoded `error` object raises
`OSMException` carrying the field's value. -/
theorem c8_error_field_raises_uncached_witness :
    (Accessor.call ⟨"A", "T", "U", "S"⟩ [] "q" none false false
        ⟨"\x7b\"error\": \"bad\"\x7d", some (Json.obj [("error", Json.str "bad")])⟩).outcome
      = .error (.osmException (Accessor.reqUrl "q")
          (buildValues ⟨"A", "T", "U", "S"⟩ none false) (Json.str "bad")) :=
  (c8_error_field_raises_uncached ⟨"A", "T", "U", "S"⟩ [] "q" none false false
      ⟨"\x7b\"error\": \"bad\"\x7d", some (Json.obj [("error", Json.str "bad")])⟩
      [("error", Json.str "bad")] (Json.str "bad")
      (by decide) (by decide) (Or.inr (by decide)) rfl (Or.inl (by decide))).1

/-- Claim C9 is false as stated: a successful authorising call IS memoized
— after it, the cache holds the decoded result at the call's key. -/
theorem c9_counterexample :
    (Accessor.call ⟨"A", "T", "U", "S"⟩ [] "q" none true false
        ⟨"[1]", some (Json.arr [Json.num 1])⟩).outcome = .ok (Json.arr [Json.num 1])
  ∧ Accessor.cacheLookup
      (Accessor.call ⟨"A", "T", "U", "S"⟩ [] "q" none true false
        ⟨"[1]", some (Json.arr [Json.num 1])⟩).cache
      (Accessor.reqUrl "q") (urlencode (buildValues ⟨"A", "T", "U", "S"⟩ none true))
      = some (Json.arr [Json.num 1]) := by
  constructor
  · decide
  · decide

/-- Claim C9 (amended): exactly the successful gateway results are
memoized, whether authorising or not — after a call returning a value, the
cache holds that value at the call's key; after any raising call, the cache
is exactly the post-clear input cache, so nothing is memoized on
failure. -/
theorem c9_success_memoized_failure_not (auth : Auth) (cache : Cache) (query : String)
    (fields : Option (PyDict String)) (authorising clear_cache : Bool) (t : Response) :
    (∀ v, (Accessor.call auth cache query fields authorising clear_cache t).outcome = .ok v →
        Accessor.cacheLookup
            (Accessor.call auth cache query fields authorising clear_cache t).cache
            (Accessor.reqUrl query) (urlencode (buildValues auth fields authorising))
          = some v)
  ∧ (∀ e, (Accessor.call auth cache query fields authorising clear_cache t).outcome
          = .error e →
        (Accessor.call auth cache query fields authorising clear_cache t).cache
          = Accessor.effCache cache clear_cache) :=
  ⟨fun v h => Accessor.call_ok_cached auth cache query fields authorising clear_cache t v h,
   fun e h => Accessor.call_error_cache auth cache query fields authorising clear_cache t e h⟩

/-- Witness for the amended C9: a successful authorising call at concrete
credentials leaves its decoded result in the cache. -/
theorem c9_success_memoized_failure_not_witness :
    Accessor.cacheLookup
        (Accessor.call ⟨"B", "T2", "U2", "S2"⟩ [] "q2" none true false
          ⟨"[2]", some (Json.arr [Json.num 2])⟩).cache
        (Accessor.reqUrl "q2") (urlencode (buildValues ⟨"B", "T2", "U2", "S2"⟩ none true))
      = some (Json.arr [Json.num 2]) :=
  (c9_success_memoized_failure_not ⟨"B", "T2", "U2", "S2"⟩ [] "q2" none true false
      ⟨"[2]", some (Json.arr [Json.num 2])⟩).1 (Json.arr [Json.num 2]) (by decide)

/-- Claim C10 (confirmed): authorisation is atomic on gateway failure — if
the authorising call inside `authorise` raises, the credential holder is
exactly as it was (`userid` and `secret` untouched) and the error
propagates; the fields are assigned only after the call returns. -/
theorem c10_authorise_atomic (a : Authorisor) (cache : Cache) (email password : String)
    (t : Response) (e : PyError)
    (hfail : (a.authoriseCall cache email password t).outcome = .error e) :
    (a.authorise cache email password t).auth = a
  ∧ (a.authorise cache email password t).err = some e := by
  unfold Authorisor.authorise
  cases hr : a.authoriseCall cache email password t with
  | mk outcome c net =>
    rw [hr] at hfail
    simp at hfail
    subst hfail
    exact ⟨rfl, rfl⟩

/-- Witness for C10: a failing authorising call (plain-text body) leaves a
freshly constructed credential holder unchanged. -/
theorem c10_authorise_atomic_witness :
    (Authorisor.authorise ⟨"A", "T", none, none⟩ [] "user@example.org" "pw"
        ⟨"bad", none⟩).auth
      = ⟨"A", "T", none, none⟩ :=
  (c10_authorise_atomic ⟨"A", "T", none, none⟩ [] "user@example.org" "pw" ⟨"bad", none⟩
      (.osmException (Accessor.reqUrl "users.php?action=authorise")
        (buildValues ⟨"A", "T", "", ""⟩
          (some [("email", "user@example.org"), ("password", "pw")]) true)
        (Json.str "bad"))
      (by decide)).1

/-- Echo success of one per-field update as a function of the oracle:
the resolved column of the response equals the submitted value (`false`
also covers an unresolvable column or a response lacking the column). -/
def Member.updOk (scoutid sectionid : Json) (rmap : PyDict String)
    (env : String → PyDict Json → Json) (key : String) (v : Json) : Bool :=
  match dictGet rmap key with
  | none => false
  | some column =>
    match pyIndexStr (env Member.update_url (Member.mkUpdFields scoutid column v sectionid))
        column with
    | .error _ => false
    | .ok echo => Json.beq echo v

/-- Definedness of one per-field update: the changed key resolves through
the inverse column map and the response carries the resolved column. -/
def Member.updDefined (scoutid sectionid : Json) (rmap : PyDict String)
    (env : String → PyDict Json → Json) (key : String) (v : Json) : Bool :=
  match dictGet rmap key with
  | none => false
  | some column =>
    match pyIndexStr (env Member.update_url (Member.mkUpdFields scoutid column v sectionid))
        column with
    | .error _ => false
    | .ok _ => true

/-- The (url, fields) pair of the per-field update call issued for a
resolvable changed key. -/
def Member.updCall (scoutid sectionid : Json) (rmap : PyDict String)
    (key : String) (v : Json) : String × PyDict Json :=
  (Member.update_url,
   Member.mkUpdFields scoutid ((dictGet rmap key).getD "") v sectionid)

theorem Member.updateLoop_spec (scoutid sectionid : Json) (rmap : PyDict String)
    (env : String → PyDict Json → Json) (items : List (String × Json))
    (hdef : ∀ p ∈ items, Member.updDefined scoutid sectionid rmap env p.1 p.2 = true) :
    Member.updateLoop scoutid sectionid rmap env items
      = .ok (items.all (fun p => Member.updOk scoutid sectionid rmap env p.1 p.2),
             items.map (fun p => Member.updCall scoutid sectionid rmap p.1 p.2)) := by
  induction items with
  | nil => rfl
  | cons p rest ih =>
    obtain ⟨k, v⟩ := p
    have hd := hdef (k, v) (List.mem_cons_self _ _)
    have hrest : ∀ q ∈ rest, Member.updDefined scoutid sectionid rmap env q.1 q.2 = true :=
      fun q hq => hdef q (List.mem_cons_of_mem _ hq)
    unfold Member.updDefined at hd
    revert hd
    cases hm : dictGet rmap k with
    | none => intro hd; cases hd
    | some column =>
      revert hm
      cases he : pyIndexStr (env Member.update_url
          (Member.mkUpdFields scoutid column v sectionid)) column with
      | error e => intro hm hd; simp [he] at hd
      | ok echo =>
        intro hm hd
        simp [Member.updateLoop, Member.updateOne, Member.updOk, Member.updCall,
          hm, he, ih hrest]

/-- Claim C7 (confirmed): `Member.save` on a record whose scoutid is the
empty string issues exactly one create call whose parameter dict is the
changed fields plus the owning section id, and adopts the response's
scoutid — non-empty afterwards whenever the response's one is; on a record
with non-empty scoutid it issues exactly one update call per changed field,
each naming the remote column resolved through the inverse column map, and
returns `True` precisely when every per-field response echoes back the
submitted value. -/
theorem c7_member_save (record : PyDict Json) (changed : List String)
    (rmap : PyDict String) (sectionid : Json) (env : String → PyDict Json → Json) :
    (∀ f0 newsid,
      dictGet record "scoutid" = some (Json.str "") →
      Member.buildFields record changed = .ok f0 →
      pyIndexStr (env Member.create_url (dictSet f0 "sectionid" sectionid)) "scoutid"
        = .ok newsid →
      ∃ res, Member.save record changed rmap sectionid env = .ok res
        ∧ res.calls = [(Member.create_url, dictSet f0 "sectionid" sectionid)]
        ∧ dictGet res.record "scoutid" = some newsid
        ∧ (newsid ≠ Json.str "" → dictGet res.record "scoutid" ≠ some (Json.str ""))
        ∧ res.retval = none)
  ∧ (∀ sv f,
      dictGet record "scoutid" = some sv →
      sv ≠ Json.str "" →
      Member.buildFields record changed = .ok f →
      (∀ p ∈ f, Member.updDefined sv sectionid rmap env p.1 p.2 = true) →
      ∃ res, Member.save record changed rmap sectionid env = .ok res
        ∧ res.calls = f.map (fun p => Member.updCall sv sectionid rmap p.1 p.2)
        ∧ res.calls.length = f.length
        ∧ (res.retval = some true ↔
            ∀ p ∈ f, Member.updOk sv sectionid rmap env p.1 p.2 = true)
        ∧ res.record = record) := by
  constructor
  · intro f0 newsid h1 h2 h3
    have hget : Member.getItem record rmap "scoutid" = .ok (Json.str "") := by
      unfold Member.getItem
      rw [h1]
    refine ⟨⟨dictSet record "scoutid" newsid,
      (if changed.contains "scoutid" then changed else changed ++ ["scoutid"]),
      none, [(Member.create_url, dictSet f0 "sectionid" sectionid)]⟩, ?_, rfl, ?_, ?_, rfl⟩
    · unfold Member.save
      rw [hget]
      simp [h2, h3, Member.setItem]
    · exact dictGet_dictSet_self _ _ _
    · intro hne
      rw [dictGet_dictSet_self]
      intro hcontra
      apply hne
      injection hcontra
  · intro sv f h1 h2 h3 h4
    have hget : Member.getItem record rmap "scoutid" = .ok sv := by
      unfold Member.getItem
      rw [h1]
    refine ⟨⟨record, changed,
      some (f.all (fun p => Member.updOk sv sectionid rmap env p.1 p.2)),
      f.map (fun p => Member.updCall sv sectionid rmap p.1 p.2)⟩, ?_, rfl, ?_, ?_, rfl⟩
    · unfold Member.save
      rw [hget]
      simp [h2, h3, Member.updateLoop_spec sv sectionid rmap env f h4]
    · simp
    · simp [List.all_eq_true]

/-- Witness for C7 at two concrete members: a new member (empty scoutid)
whose create call returns scoutid "123", and an existing member (scoutid
"9") with one changed display-name field whose update call echoes the
value. -/
theorem c7_member_save_witness :
    (∃ res, Member.save [("scoutid", Json.str ""), ("firstname", Json.str "Bob")]
          ["firstname"] [] (Json.num 7)
          (fun _ _ => Json.obj [("scoutid", Json.str "123")]) = .ok res
      ∧ res.calls = [(Member.create_url,
          [("firstname", Json.str "Bob"), ("sectionid", Json.num 7)])]
      ∧ dictGet res.record "scoutid" = some (Json.str "123")
      ∧ (Json.str "123" ≠ Json.str "" →
          dictGet res.record "scoutid" ≠ some (Json.str ""))
      ∧ res.retval = none)
  ∧ (∃ res, Member.save [("scoutid", Json.str "9"), ("ParentName", Json.str "new")]
          ["ParentName"] [("ParentName", "custom1")] (Json.num 7)
          (fun _ _ => Json.obj [("custom1", Json.str "new")]) = .ok res
      ∧ res.calls = [(Member.update_url,
          [("scoutid", Json.str "9"), ("column", Json.str "custom1"),
           ("value", Json.str "new"), ("sectionid", Json.num 7)])]
      ∧ res.calls.length = [("ParentName", Json.str "new")].length
      ∧ (res.retval = some true ↔
          ∀ p ∈ [("ParentName", Json.str "new")],
            Member.updOk (Json.str "9") (Json.num 7) [("ParentName", "custom1")]
              (fun _ _ => Json.obj [("custom1", Json.str "new")]) p.1 p.2 = true)
      ∧ res.record = [("scoutid", Json.str "9"), ("ParentName", Json.str "new")]) :=
  ⟨(c7_member_save [("scoutid", Json.str ""), ("firstname", Json.str "Bob")]
      ["firstname"] [] (Json.num 7)
      (fun _ _ => Json.obj [("scoutid", Json.str "123")])).1
      [("firstname", Json.str "Bob")] (Json.str "123")
      (by decide) (by decide) (by decide),
   (c7_member_save [("scoutid", Json.str "9"), ("ParentName", Json.str "new")]
      ["ParentName"] [("ParentName", "custom1")] (Json.num 7)
      (fun _ _ => Json.obj [("custom1", Json.str "new")])).2
      (Json.str "9") [("ParentName", Json.str "new")]
      (by decide) (by decide) (by decide)
      (by
        intro p hp
        rw [List.mem_singleton] at hp
        subst hp
        decide)⟩
